import Mathlib

/-!
Verification development for the Ezyvoting blockchain-based voting backend
(Flask application under backend-flask/app).  The definitions below are a
shallow embedding of the route handlers in app/routes/elections.py,
app/routes/blockchain.py, app/routes/voters.py, of the SQLAlchemy models in
app/models.py, and of the validate_json middleware in app/middleware.
The relational store is modelled as explicit lists of rows; each handler is a
pure function from the store (plus the outcome of the external ledger calls it
makes through Web3Service) to an HTTP-level outcome and the updated store.
-/

namespace Ezyvoting

/-- Phase column of votes_metadata: Enum("committed", "revealed"). -/
inductive Phase where
  | committed
  | revealed
  deriving DecidableEq

/-- Status column of elections:
Enum("pending", "active", "reveal", "tallying", "finalized", "cancelled"). -/
inductive ElectionStatus where
  | pending
  | active
  | reveal
  | tallying
  | finalized
  | cancelled
  deriving DecidableEq

/-- Election model (app/models.py).  The autoincrement primary key is supplied
by the caller of create_election as a fresh identifier; datetimes are modelled
as integers (Unix-style ordering is all the handlers use). -/
structure Election where
  id : Nat
  onchain_id : Option Nat
  name : String
  description : String
  election_type : String
  constituency_id : Nat
  ballot_address : Option String
  commit_deadline : Int
  reveal_deadline : Int
  status : ElectionStatus
  created_by : Nat
  tx_hash : Option String
  deriving DecidableEq

/-- Candidate model (app/models.py).  The autoincrement primary key is not
modelled; rows are linked to elections through election_id. -/
structure Candidate where
  election_id : Nat
  onchain_id : Option Nat
  name : String
  party : String
  description : String
  deriving DecidableEq

/-- VoteMetadata model (app/models.py), the VoteReceipt of the specification.
Timestamps are Nat.  models.py also declares
UniqueConstraint("election_id", "voter_address"); here uniqueness of the pair
is stated as the predicate pairUnique and proved preserved by the handlers. -/
structure VoteMetadata where
  id : Nat
  election_id : Nat
  voter_address : String
  receipt_hash : String
  commit_tx_hash : Option String
  reveal_tx_hash : Option String
  phase : Phase
  committed_at : Nat
  revealed_at : Option Nat
  deriving DecidableEq

/-- Result model (app/models.py), the CachedResult of the specification.  The
autoincrement primary key is not modelled. -/
structure Result where
  election_id : Nat
  candidate_id : Nat
  candidate_name : String
  party : String
  vote_count : Nat
  total_commits : Nat
  total_reveals : Nat
  is_winner : Bool
  deriving DecidableEq

/-- Voter model (app/models.py), the VoterIdentity of the specification. -/
structure Voter where
  id : Nat
  name : String
  identity_hash : String
  wallet_address : String
  constituency_id : Nat
  is_registered_onchain : Bool
  tx_hash : Option String
  is_active : Bool
  deriving DecidableEq

/-- The local relational store: one list of rows per table the claims touch. -/
structure DB where
  elections : List Election
  candidates : List Candidate
  votes : List VoteMetadata
  results : List Result
  voters : List Voter
  deriving DecidableEq

/-- Python .strip().lower() applied to voter addresses in the handlers:
leading and trailing whitespace removed, then lowercased, modelled on the
underlying character list. -/
def normalizeAddr (s : String) : String :=
  ⟨((s.data.dropWhile Char.isWhitespace).reverse.dropWhile
      Char.isWhitespace).reverse.map Char.toLower⟩

/-- A JSON field is missing for validate_json (app/middleware/__init__.py)
when the key is absent or its value is the empty string:
f not in data or data[f] == "". -/
def fieldMissing : Option String → Bool
  | none => true
  | some s => s == ""

/-- Replace the first element satisfying p by its image under f; models
mutating the row returned by Query.first(). -/
def update_first (p : α → Bool) (f : α → α) : List α → List α
  | [] => []
  | x :: xs => if p x then f x :: xs else x :: update_first p f xs

/-- At most one votes_metadata row per (election_id, voter_address) pair. -/
def pairUnique (votes : List VoteMetadata) : Prop :=
  votes.Pairwise fun a b =>
    a.election_id ≠ b.election_id ∨ a.voter_address ≠ b.voter_address

-- ──────────────────── record_commit (app/routes/blockchain.py 45-84) ────────────────────

/-- JSON body of POST /vote/commit; every field optional at the JSON level. -/
structure CommitRequest where
  ballotAddress : Option String
  commitHash : Option String
  voterAddress : Option String
  txHash : Option String
  deriving DecidableEq

/-- Outcome of record_commit: 400 from validate_json, 404, 409, or 200. -/
inductive CommitOutcome where
  | badRequest (missing : List String)
  | missingElection (msg : String)
  | duplicate
  | ok (receiptId : Nat)
  deriving DecidableEq

/-- record_commit (app/routes/blockchain.py).  validate_json requires only
ballotAddress and commitHash; voter_address falls back to the empty string via
data.get("voterAddress", "").strip().lower().  now is the commit timestamp and
fresh the autoincrement id of a newly inserted row. -/
def record_commit (db : DB) (req : CommitRequest) (now : Nat) (fresh : Nat) :
    CommitOutcome × DB :=
  let missing :=
    (if fieldMissing req.ballotAddress then ["ballotAddress"] else []) ++
    (if fieldMissing req.commitHash then ["commitHash"] else [])
  if missing.isEmpty then
    let voter_address := normalizeAddr (req.voterAddress.getD "")
    match db.elections.find?
        (fun e => e.ballot_address == some (req.ballotAddress.getD "")) with
    | none => (.missingElection "Election not found for ballot", db)
    | some election =>
      match db.votes.find? (fun m =>
          m.election_id == election.id && m.voter_address == voter_address) with
      | some _ => (.duplicate, db)
      | none =>
        let meta : VoteMetadata :=
          { id := fresh
            election_id := election.id
            voter_address := voter_address
            receipt_hash := req.commitHash.getD ""
            commit_tx_hash := req.txHash
            reveal_tx_hash := none
            phase := .committed
            committed_at := now
            revealed_at := none }
        (.ok fresh, { db with votes := db.votes ++ [meta] })
  else (.badRequest missing, db)

-- ──────────────────── record_reveal (app/routes/blockchain.py 89-116) ────────────────────

/-- JSON body of POST /vote/reveal. -/
structure RevealRequest where
  ballotAddress : Option String
  voterAddress : Option String
  txHash : Option String
  deriving DecidableEq

/-- Outcome of record_reveal: 400 from validate_json, 404, or 200. -/
inductive RevealOutcome where
  | badRequest (missing : List String)
  | missingRow (msg : String)
  | ok
  deriving DecidableEq

/-- record_reveal (app/routes/blockchain.py).  validate_json requires
ballotAddress and voterAddress.  The handler looks the receipt up by
(election_id, voter_address) only; it does not inspect the current phase.
On the found row it sets phase="revealed", reveal_tx_hash and revealed_at. -/
def record_reveal (db : DB) (req : RevealRequest) (now : Nat) :
    RevealOutcome × DB :=
  let missing :=
    (if fieldMissing req.ballotAddress then ["ballotAddress"] else []) ++
    (if fieldMissing req.voterAddress then ["voterAddress"] else [])
  if missing.isEmpty then
    let voter_address := normalizeAddr (req.voterAddress.getD "")
    match db.elections.find?
        (fun e => e.ballot_address == some (req.ballotAddress.getD "")) with
    | none => (.missingRow "Election not found", db)
    | some election =>
      let keyMatch : VoteMetadata → Bool := fun m =>
        m.election_id == election.id && m.voter_address == voter_address
      match db.votes.find? keyMatch with
      | none => (.missingRow "No commit found", db)
      | some _ =>
        let upd : VoteMetadata → VoteMetadata := fun m =>
          { m with
              phase := .revealed
              reveal_tx_hash := req.txHash
              revealed_at := some now }
        (.ok, { db with votes := update_first keyMatch upd db.votes })
  else (.badRequest missing, db)

-- ──────────────────── sync_results (app/routes/elections.py 197-238) ────────────────────

/-- One element of the list returned by Web3Service.get_ballot_results. -/
structure FetchedCandidate where
  id : Nat
  name : String
  party : String
  vote_count : Nat
  deriving DecidableEq

/-- The fields of Web3Service.get_election_info the handlers read. -/
structure ChainElectionInfo where
  total_commits : Nat
  total_reveals : Nat
  is_finalized : Bool
  deriving DecidableEq

/-- Outcome of sync_results: 404 from get_or_404, 400 without a ballot,
500 on a ledger failure, or 200 with the synced row count. -/
inductive SyncOutcome where
  | missingElection
  | noBallot (msg : String)
  | chainError (msg : String)
  | ok (synced : Nat)
  deriving DecidableEq

/-- max((r["vote_count"] for r in results), default=0). -/
def max_votes_of (results : List FetchedCandidate) : Nat :=
  (results.map fun r => r.vote_count).foldr max 0

/-- Body of the caching loop in sync_results: the Result row built from one
fetched candidate, given the precomputed max_votes. -/
def mkCachedResult (election_id : Nat) (info : ChainElectionInfo)
    (max_votes : Nat) (r : FetchedCandidate) : Result :=
  { election_id := election_id
    candidate_id := r.id
    candidate_name := r.name
    party := r.party
    vote_count := r.vote_count
    total_commits := info.total_commits
    total_reveals := info.total_reveals
    is_winner := r.vote_count == max_votes && decide (0 < max_votes) }

/-- sync_results (app/routes/elections.py).  fetch is the combined outcome of
the two ledger reads (get_ballot_results, get_election_info) inside the
handler: either both succeed or the except branch returns 500 before any
cached row is deleted.  On success the cached rows of the election are
deleted, rebuilt from the fetched set, and status is set to finalized when
the ledger reports the election finalized. -/
def sync_results (db : DB) (election_id : Nat)
    (fetch : Except String (List FetchedCandidate × ChainElectionInfo)) :
    SyncOutcome × DB :=
  match db.elections.find? (fun e => e.id == election_id) with
  | none => (.missingElection, db)
  | some election =>
    match election.ballot_address with
    | none => (.noBallot "No ballot contract deployed", db)
    | some _ =>
      match fetch with
      | .error e => (.chainError ("Blockchain error: " ++ e), db)
      | .ok (results, info) =>
        let kept := db.results.filter fun r => !(r.election_id == election_id)
        let max_votes := max_votes_of results
        let newRows := results.map (mkCachedResult election_id info max_votes)
        let elections' := update_first (fun e => e.id == election_id)
          (fun e =>
            { e with
                status := if info.is_finalized then .finalized else e.status })
          db.elections
        (.ok results.length,
          { db with results := kept ++ newRows, elections := elections' })

-- ──────────────────── cancel_election (app/routes/elections.py 243-265) ────────────────────

/-- Outcome of cancel_election: 404 from get_or_404, 500 when the on-chain
cancel transaction fails, or 200. -/
inductive CancelOutcome where
  | missingElection
  | chainError (msg : String)
  | ok
  deriving DecidableEq

/-- cancel_election (app/routes/elections.py).  chainCancel is the outcome of
the _send_tx call on ballot.functions.cancelElection; it is consulted only
when the election has a ballot_address.  The handler performs no check on the
current status before setting it to cancelled. -/
def cancel_election (db : DB) (election_id : Nat)
    (chainCancel : Except String Unit) : CancelOutcome × DB :=
  match db.elections.find? (fun e => e.id == election_id) with
  | none => (.missingElection, db)
  | some election =>
    let doCancel : CancelOutcome × DB :=
      (.ok,
        { db with
            elections := update_first (fun e => e.id == election_id)
              (fun e => { e with status := .cancelled }) db.elections })
    match election.ballot_address with
    | some _ =>
      match chainCancel with
      | .error e => (.chainError ("On-chain cancel failed: " ++ e), db)
      | .ok _ => doCancel
    | none => doCancel

-- ──────────────────── create_election (app/routes/elections.py 18-104) ────────────────────

/-- One element of the candidates array in the creation request. -/
structure CandidateInput where
  name : String
  party : Option String
  description : Option String
  deriving DecidableEq

/-- Parsed JSON body of POST / on the elections blueprint, after
datetime.fromisoformat and the constituencyId / electionType defaults. -/
structure CreateElectionRequest where
  name : String
  description : String
  commitDeadline : Int
  revealDeadline : Int
  candidates : List CandidateInput
  constituencyId : Nat
  electionType : String
  deriving DecidableEq

/-- Outcome of create_election: 400 on a validation failure, else 201 with
the election row as committed. -/
inductive CreateOutcome where
  | validationError (msg : String)
  | created (election : Election)
  deriving DecidableEq

/-- Candidate row built from one element of the request, for election fresh. -/
def mkCandidate (fresh : Nat) (c : CandidateInput) : Candidate :=
  { election_id := fresh
    onchain_id := none
    name := c.name
    party := c.party.getD "Independent"
    description := c.description.getD "" }

/-- create_election (app/routes/elections.py).  now is datetime.utcnow() at
validation time, creator the current admin user id, fresh the id the flush
assigns to the new row, and deploy the outcome of Web3Service.create_election
returning (onchain_id, ballot_address).  The local row and its candidates are
persisted in both branches of the try around the deployment; the except
branch leaves status at pending with no ledger identifiers. -/
def create_election (db : DB) (req : CreateElectionRequest) (now : Int)
    (creator : Nat) (fresh : Nat) (deploy : Except String (Nat × String)) :
    CreateOutcome × DB :=
  if req.commitDeadline ≤ now then
    (.validationError "Commit deadline must be in the future", db)
  else if req.revealDeadline ≤ req.commitDeadline then
    (.validationError "Reveal deadline must be after commit deadline", db)
  else if req.candidates.length < 2 then
    (.validationError "At least 2 candidates required", db)
  else
    let newCands := req.candidates.map (mkCandidate fresh)
    let base : Election :=
      { id := fresh
        onchain_id := none
        name := req.name
        description := req.description
        election_type := req.electionType
        constituency_id := req.constituencyId
        ballot_address := none
        commit_deadline := req.commitDeadline
        reveal_deadline := req.revealDeadline
        status := .pending
        created_by := creator
        tx_hash := none }
    let final : Election :=
      match deploy with
      | .ok (oid, addr) =>
        { base with
            onchain_id := some oid
            ballot_address := some addr
            status := .active }
      | .error _ => base
    (.created final,
      { db with
          elections := db.elections ++ [final]
          candidates := db.candidates ++ newCands })

-- ──────────────────── check_eligibility (app/routes/voters.py 44-60) ────────────────────

/-- Outcome of GET /wallet/(wallet)/eligibility.  Info is the shape of the
get_voter_info payload, echoed through unchanged. -/
inductive EligOutcome (Info : Type) where
  | ok (wallet : String) (eligible : Bool) (info : Info)
  | chainError (msg : String)
  deriving DecidableEq

/-- check_eligibility (app/routes/voters.py).  The handler calls
Web3Service.is_voter_eligible then get_voter_info inside one try; the first
failure is returned as 500.  The db parameter is the local store the handler
could read; the handler performs no local query, in particular it never
consults Voter.is_active. -/
def check_eligibility (Info : Type) (db : DB) (wallet : String)
    (isVoterEligible : Except String Bool)
    (getVoterInfo : Except String Info) : EligOutcome Info :=
  match isVoterEligible with
  | .error e => .chainError e
  | .ok eligible =>
    match getVoterInfo with
    | .error e => .chainError e
    | .ok info => .ok wallet eligible info

-- ──────────────────── helper lemmas ────────────────────

theorem normalizeAddr_empty : normalizeAddr "" = "" := by
  decide

theorem update_first_mem_of_find? {α : Type} {p : α → Bool} {f : α → α}
    {l : List α} {a : α} (h : l.find? p = some a) :
    f a ∈ update_first p f l := by
  induction l with
  | nil => simp at h
  | cons x xs ih =>
    by_cases hx : p x
    · rw [List.find?_cons_of_pos _ hx] at h
      cases h
      simp [update_first, hx]
    · rw [List.find?_cons_of_neg _ hx] at h
      simp [update_first, hx, ih h]

theorem le_foldr_max {l : List Nat} {a : Nat} (h : a ∈ l) :
    a ≤ l.foldr max 0 := by
  induction l with
  | nil => simp at h
  | cons x xs ih =>
    rcases List.mem_cons.mp h with rfl | h'
    · exact le_max_left _ _
    · exact le_trans (ih h') (le_max_right _ _)

theorem foldr_max_mem : ∀ (l : List Nat), l ≠ [] → l.foldr max 0 ∈ l
  | [x], _ => by simp
  | x :: y :: ys, _ => by
    have ih := foldr_max_mem (y :: ys) (by simp)
    rw [List.foldr_cons]
    rcases max_choice x ((y :: ys).foldr max 0) with heq | heq
    · rw [heq]; exact List.mem_cons_self _ _
    · rw [heq]; exact List.mem_cons_of_mem _ ih

-- ──────────────────── sample rows for concrete evaluations ────────────────────

def sampleElection : Election :=
  { id := 1
    onchain_id := some 7
    name := "General 2025"
    description := "d"
    election_type := "general"
    constituency_id := 0
    ballot_address := some "0xball"
    commit_deadline := 10
    reveal_deadline := 20
    status := .active
    created_by := 1
    tx_hash := none }

def sampleReceipt : VoteMetadata :=
  { id := 3
    election_id := 1
    voter_address := "0xv"
    receipt_hash := "0xhash"
    commit_tx_hash := none
    reveal_tx_hash := none
    phase := .committed
    committed_at := 5
    revealed_at := none }

def sampleDB : DB :=
  { elections := [sampleElection]
    candidates := []
    votes := [sampleReceipt]
    results := []
    voters := [] }

def sampleCommitReq : CommitRequest :=
  { ballotAddress := some "0xball"
    commitHash := some "0xhash2"
    voterAddress := some "0xv"
    txHash := none }

/-- Shared helper: when the election of the request resolves and a receipt
for the pair of the request already exists, record_commit returns the
duplicate outcome and the unchanged store. -/
theorem record_commit_dup_of_existing (db : DB) (req : CommitRequest)
    (now fresh : Nat) (election : Election) (m : VoteMetadata)
    (hfe : db.elections.find?
        (fun e => e.ballot_address == some (req.ballotAddress.getD "")) =
      some election)
    (hfv : db.votes.find? (fun x =>
        x.election_id == election.id &&
          x.voter_address == normalizeAddr (req.voterAddress.getD "")) =
      some m)
    (hb : fieldMissing req.ballotAddress = false)
    (hc : fieldMissing req.commitHash = false) :
    record_commit db req now fresh = (.duplicate, db) := by
  simp [record_commit, hb, hc, hfe, hfv]

-- ──────────────────── C1 ────────────────────

/-- C1: record_commit preserves the at-most-one-VoteMetadata-row invariant
for every (election_id, voter_address) pair, and when a receipt already
exists for the pair of the request, the call returns the 409 duplicate
outcome and leaves the store, hence the existing receipt and all its
fields, unchanged: no row is inserted. -/
theorem record_commit_at_most_one_receipt :
    (∀ (db : DB) (req : CommitRequest) (now fresh : Nat),
        pairUnique db.votes →
        pairUnique ((record_commit db req now fresh).2).votes)
    ∧ (∀ (db : DB) (req : CommitRequest) (now fresh : Nat)
        (election : Election) (m : VoteMetadata),
        db.elections.find?
            (fun e => e.ballot_address == some (req.ballotAddress.getD "")) =
          some election →
        db.votes.find? (fun x =>
            x.election_id == election.id &&
              x.voter_address == normalizeAddr (req.voterAddress.getD "")) =
          some m →
        fieldMissing req.ballotAddress = false →
        fieldMissing req.commitHash = false →
        record_commit db req now fresh = (.duplicate, db)) := by
  constructor
  · intro db req now fresh h
    by_cases hb : fieldMissing req.ballotAddress = true
    · simpa [record_commit, hb] using h
    · by_cases hc : fieldMissing req.commitHash = true
      · simpa [record_commit, hb, hc] using h
      · cases hfe : db.elections.find?
            (fun e => e.ballot_address == some (req.ballotAddress.getD "")) with
        | none => simpa [record_commit, hb, hc, hfe] using h
        | some election =>
          cases hfv : db.votes.find? (fun m =>
              m.election_id == election.id &&
                m.voter_address == normalizeAddr (req.voterAddress.getD "")) with
          | some m => simpa [record_commit, hb, hc, hfe, hfv] using h
          | none =>
            have hred : ((record_commit db req now fresh).2).votes =
                db.votes ++
                  [{ id := fresh
                     election_id := election.id
                     voter_address := normalizeAddr (req.voterAddress.getD "")
                     receipt_hash := req.commitHash.getD ""
                     commit_tx_hash := req.txHash
                     reveal_tx_hash := none
                     phase := .committed
                     committed_at := now
                     revealed_at := none }] := by
              simp [record_commit, hb, hc, hfe, hfv]
            rw [pairUnique, hred]
            refine List.pairwise_append.mpr ⟨h, by simp, ?_⟩
            intro a ha b hb'
            rcases List.mem_singleton.mp hb' with rfl
            have hnot := List.find?_eq_none.mp hfv a ha
            simp only [Bool.and_eq_true, beq_iff_eq, not_and] at hnot
            by_cases hid : a.election_id = election.id
            · right
              intro hv
              exact hnot hid hv
            · left
              exact hid
  · intro db req now fresh election m hfe hfv hb hc
    simp [record_commit, hb, hc, hfe, hfv]

/-- C1 witness: on a concrete store already holding a receipt for the pair,
the second commit call returns duplicate and the unchanged store. -/
theorem record_commit_at_most_one_receipt_witness :
    record_commit sampleDB sampleCommitReq 6 4 = (.duplicate, sampleDB) := by
  exact record_commit_at_most_one_receipt.2 sampleDB sampleCommitReq 6 4
    sampleElection sampleReceipt (by decide) (by decide) (by decide) (by decide)

-- ──────────────────── C9 ────────────────────

def revealedReceipt : VoteMetadata :=
  { sampleReceipt with phase := .revealed, revealed_at := some 6 }

def dbRevealed : DB :=
  { sampleDB with votes := [revealedReceipt] }

def sampleRevealReq : RevealRequest :=
  { ballotAddress := some "0xball"
    voterAddress := some "0xv"
    txHash := none }

/-- C9 counterexample: the claim says a pair whose receipt is not in the
committed phase fails with NotFound, but on a store whose only receipt for
the pair is already in the revealed phase record_reveal returns the success
outcome: the handler checks only that a receipt exists, never its phase. -/
theorem record_reveal_phase_counterexample :
    revealedReceipt.phase = Phase.revealed ∧
    (record_reveal dbRevealed sampleRevealReq 9).1 = RevealOutcome.ok := by
  decide

/-- C9 as amended: record_reveal fails with NotFound exactly when no receipt
exists for the (election, voter) pair, creating none; on any existing receipt,
regardless of its phase, it succeeds, sets the phase to revealed and stamps
revealedAt. -/
theorem record_reveal_requires_existing_receipt :
    (∀ (db : DB) (req : RevealRequest) (now : Nat) (election : Election),
        fieldMissing req.ballotAddress = false →
        fieldMissing req.voterAddress = false →
        db.elections.find?
            (fun e => e.ballot_address == some (req.ballotAddress.getD "")) =
          some election →
        db.votes.find? (fun m =>
            m.election_id == election.id &&
              m.voter_address == normalizeAddr (req.voterAddress.getD "")) =
          none →
        record_reveal db req now = (.missingRow "No commit found", db))
    ∧ (∀ (db : DB) (req : RevealRequest) (now : Nat) (election : Election)
          (m : VoteMetadata),
        fieldMissing req.ballotAddress = false →
        fieldMissing req.voterAddress = false →
        db.elections.find?
            (fun e => e.ballot_address == some (req.ballotAddress.getD "")) =
          some election →
        db.votes.find? (fun x =>
            x.election_id == election.id &&
              x.voter_address == normalizeAddr (req.voterAddress.getD "")) =
          some m →
        (record_reveal db req now).1 = .ok ∧
        { m with
            phase := Phase.revealed
            reveal_tx_hash := req.txHash
            revealed_at := some now } ∈ (record_reveal db req now).2.votes) := by
  constructor
  · intro db req now election hb hv hfe hfv
    simp [record_reveal, hb, hv, hfe, hfv]
  · intro db req now election m hb hv hfe hfv
    constructor
    · simp [record_reveal, hb, hv, hfe, hfv]
    · have hred : (record_reveal db req now).2.votes =
          update_first (fun x =>
              x.election_id == election.id &&
                x.voter_address == normalizeAddr (req.voterAddress.getD ""))
            (fun x =>
              { x with
                  phase := Phase.revealed
                  reveal_tx_hash := req.txHash
                  revealed_at := some now }) db.votes := by
        simp [record_reveal, hb, hv, hfe, hfv]
      rw [hred]
      exact update_first_mem_of_find? hfv

def dbNoVotes : DB :=
  { sampleDB with votes := [] }

/-- C9 witness: both branches of the amended theorem at concrete stores:
no receipt gives NotFound without a new row, an existing receipt is moved to
the revealed phase. -/
theorem record_reveal_requires_existing_receipt_witness :
    record_reveal dbNoVotes sampleRevealReq 9 =
      (.missingRow "No commit found", dbNoVotes) ∧
    (record_reveal sampleDB sampleRevealReq 9).1 = RevealOutcome.ok := by
  constructor
  · exact record_reveal_requires_existing_receipt.1 dbNoVotes sampleRevealReq 9
      sampleElection (by decide) (by decide) (by decide) (by decide)
  · exact (record_reveal_requires_existing_receipt.2 sampleDB sampleRevealReq 9
      sampleElection sampleReceipt (by decide) (by decide) (by decide)
      (by decide)).1

-- ──────────────────── C3 ────────────────────

def finalizedElection : Election :=
  { sampleElection with
      onchain_id := none
      ballot_address := none
      status := .finalized }

def dbFinalized : DB :=
  { elections := [finalizedElection]
    candidates := []
    votes := []
    results := []
    voters := [] }

/-- C3 counterexample: cancel_election performs no status check, so a
finalized election is moved to cancelled, contradicting both that cancelled
is reachable only from a non-terminal state and that no operation moves a
finalized election to any other status. -/
theorem cancel_finalized_counterexample :
    finalizedElection.status = ElectionStatus.finalized ∧
    (cancel_election dbFinalized 1 (Except.ok ())).1 = CancelOutcome.ok ∧
    ((cancel_election dbFinalized 1 (Except.ok ())).2.elections.map
        fun e => e.status) = [ElectionStatus.cancelled] := by
  decide

/-- C3 as amended: the status transitions are unguarded. cancel_election sets
status to cancelled from any current status, including finalized and
cancelled, whenever no ballot is deployed or the on-chain cancel succeeds;
sync_results sets status to finalized from any current status, including
cancelled, whenever the ledger reports the election finalized. -/
theorem status_transitions_unguarded :
    (∀ (db : DB) (election_id : Nat) (chain : Except String Unit)
        (election : Election),
        db.elections.find? (fun e => e.id == election_id) = some election →
        (election.ballot_address = none ∨ chain = .ok ()) →
        { election with status := ElectionStatus.cancelled } ∈
          (cancel_election db election_id chain).2.elections)
    ∧ (∀ (db : DB) (election_id : Nat) (results : List FetchedCandidate)
          (info : ChainElectionInfo) (election : Election) (addr : String),
        db.elections.find? (fun e => e.id == election_id) = some election →
        election.ballot_address = some addr →
        info.is_finalized = true →
        { election with status := ElectionStatus.finalized } ∈
          (sync_results db election_id (.ok (results, info))).2.elections) := by
  constructor
  · intro db election_id chain election hfe hcase
    have hmem := update_first_mem_of_find?
      (f := fun e => { e with status := ElectionStatus.cancelled }) hfe
    cases hba : election.ballot_address with
    | none => simpa [cancel_election, hfe, hba] using hmem
    | some a =>
      rcases hcase with hnone | hok
      · rw [hba] at hnone
        exact absurd hnone (by simp)
      · subst hok
        simpa [cancel_election, hfe, hba] using hmem
  · intro db election_id results info election addr hfe hba hfin
    have hmem := update_first_mem_of_find?
      (f := fun e =>
        { e with
            status := if info.is_finalized then ElectionStatus.finalized
              else e.status }) hfe
    simp only [hfin, if_true] at hmem
    simpa [sync_results, hfe, hba, hfin] using hmem

def cancelledElection : Election :=
  { sampleElection with status := .cancelled }

def dbCancelled : DB :=
  { elections := [cancelledElection]
    candidates := []
    votes := []
    results := []
    voters := [] }

def finalInfo : ChainElectionInfo :=
  { total_commits := 2
    total_reveals := 1
    is_finalized := true }

/-- C3 witness: a finalized election is cancelled by cancel_election, and a
cancelled election is finalized by sync_results reporting finalization. -/
theorem status_transitions_unguarded_witness :
    ({ finalizedElection with status := ElectionStatus.cancelled } ∈
      (cancel_election dbFinalized 1 (Except.ok ())).2.elections) ∧
    ({ cancelledElection with status := ElectionStatus.finalized } ∈
      (sync_results dbCancelled 1 (Except.ok ([], finalInfo))).2.elections) := by
  constructor
  · exact status_transitions_unguarded.1 dbFinalized 1 (Except.ok ())
      finalizedElection (by decide) (Or.inl (by decide))
  · exact status_transitions_unguarded.2 dbCancelled 1 [] finalInfo
      cancelledElection "0xball" (by decide) (by decide) (by decide)

-- ──────────────────── C6 ────────────────────

/-- C6: with a deployed ballot a failing on-chain cancel fails the whole
operation with the 500 outcome and leaves the store, hence the local status,
unchanged; without a ballot address the cancellation is purely local, always
succeeds, and sets the status to cancelled. -/
theorem cancel_election_ledger_gated :
    (∀ (db : DB) (election_id : Nat) (msg : String) (election : Election)
        (addr : String),
        db.elections.find? (fun e => e.id == election_id) = some election →
        election.ballot_address = some addr →
        cancel_election db election_id (.error msg) =
          (.chainError ("On-chain cancel failed: " ++ msg), db))
    ∧ (∀ (db : DB) (election_id : Nat) (chain : Except String Unit)
          (election : Election),
        db.elections.find? (fun e => e.id == election_id) = some election →
        election.ballot_address = none →
        (cancel_election db election_id chain).1 = .ok ∧
        { election with status := ElectionStatus.cancelled } ∈
          (cancel_election db election_id chain).2.elections) := by
  constructor
  · intro db election_id msg election addr hfe hba
    simp [cancel_election, hfe, hba]
  · intro db election_id chain election hfe hba
    have hmem := update_first_mem_of_find?
      (f := fun e => { e with status := ElectionStatus.cancelled }) hfe
    exact ⟨by simp [cancel_election, hfe, hba],
      by simpa [cancel_election, hfe, hba] using hmem⟩

/-- C6 witness: a deployed election with a failing chain cancel is left
untouched with the 500 outcome; an undeployed finalized-free election is
cancelled locally. -/
theorem cancel_election_ledger_gated_witness :
    cancel_election sampleDB 1 (Except.error "revert") =
      (.chainError ("On-chain cancel failed: " ++ "revert"), sampleDB) ∧
    (cancel_election dbFinalized 1 (Except.error "revert")).1 =
      CancelOutcome.ok := by
  constructor
  · exact cancel_election_ledger_gated.1 sampleDB 1 "revert" sampleElection
      "0xball" (by decide) (by decide)
  · exact (cancel_election_ledger_gated.2 dbFinalized 1 (Except.error "revert")
      finalizedElection (by decide) (by decide)).1

-- ──────────────────── C7 ────────────────────

def exampleFetched : List FetchedCandidate :=
  [{ id := 1, name := "A", party := "p", vote_count := 10 },
   { id := 2, name := "B", party := "p", vote_count := 10 },
   { id := 3, name := "C", party := "p", vote_count := 5 }]

def exampleInfo : ChainElectionInfo :=
  { total_commits := 25
    total_reveals := 25
    is_finalized := true }

/-- C7: max_votes_of is the maximum vote_count of the fetched set (an upper
bound attained on a nonempty set, 0 on the empty set); after a successful
sync every cached row of the election is marked winner exactly when its
vote_count equals that maximum and the maximum is positive, so ties give
several winners; on the tally [(1,A,10),(2,B,10),(3,C,5)] candidates 1 and 2
are winners and candidate 3 is not. -/
theorem sync_results_winner_policy :
    (∀ (results : List FetchedCandidate) (r : FetchedCandidate),
        r ∈ results → r.vote_count ≤ max_votes_of results)
    ∧ (∀ results : List FetchedCandidate, results ≠ [] →
        max_votes_of results ∈ results.map fun r => r.vote_count)
    ∧ max_votes_of [] = 0
    ∧ (∀ (db : DB) (election_id : Nat) (results : List FetchedCandidate)
          (info : ChainElectionInfo) (election : Election) (addr : String),
        db.elections.find? (fun e => e.id == election_id) = some election →
        election.ballot_address = some addr →
        ∀ row ∈ ((sync_results db election_id
            (.ok (results, info))).2.results.filter
              fun r => r.election_id == election_id),
          (row.is_winner = true ↔
            row.vote_count = max_votes_of results ∧ 0 < max_votes_of results))
    ∧ ((sync_results sampleDB 1 (.ok (exampleFetched, exampleInfo))).2.results.map
        fun r => (r.candidate_id, r.is_winner)) =
      [(1, true), (2, true), (3, false)] := by
  refine ⟨?_, ?_, rfl, ?_, by decide⟩
  · intro results r hr
    exact le_foldr_max (List.mem_map.mpr ⟨r, hr, rfl⟩)
  · intro results hne
    exact foldr_max_mem _ (by simpa using hne)
  · intro db election_id results info election addr hfe hba row hrow
    have hred : (sync_results db election_id (.ok (results, info))).2.results =
        db.results.filter (fun r => !(r.election_id == election_id)) ++
          results.map (mkCachedResult election_id info (max_votes_of results)) := by
      simp [sync_results, hfe, hba]
    rw [hred, List.filter_append] at hrow
    rcases List.mem_append.mp hrow with hl | hr
    · rcases List.mem_filter.mp hl with ⟨hin, hpos⟩
      rcases List.mem_filter.mp hin with ⟨_, hneg⟩
      simp at hpos hneg
      exact absurd hpos hneg
    · have hrow' := (List.mem_filter.mp hr).1
      rcases List.mem_map.mp hrow' with ⟨r, hrmem, rfl⟩
      simp [mkCachedResult]

/-- C7 witness: the maximum bound and its attainment instantiated on the
example tally, and the winner characterization on one synced row. -/
theorem sync_results_winner_policy_witness :
    (10 ≤ max_votes_of exampleFetched) ∧
    (max_votes_of exampleFetched ∈ exampleFetched.map fun r => r.vote_count) := by
  constructor
  · exact sync_results_winner_policy.1 exampleFetched
      { id := 1, name := "A", party := "p", vote_count := 10 } (by decide)
  · exact sync_results_winner_policy.2.1 exampleFetched (by decide)

-- ──────────────────── C8 ────────────────────

theorem filter_not_filter_self (l : List Result) (election_id : Nat) :
    ((l.filter fun r => !(r.election_id == election_id)).filter
        fun r => r.election_id == election_id) = [] := by
  induction l with
  | nil => rfl
  | cons x xs ih =>
    by_cases h : x.election_id == election_id <;>
      simp [List.filter_cons, h, ih]

theorem length_filter_mkCached (results : List FetchedCandidate)
    (election_id : Nat) (info : ChainElectionInfo) (max_votes : Nat) :
    ((results.map (mkCachedResult election_id info max_votes)).filter
        fun r => r.election_id == election_id).length = results.length := by
  induction results with
  | nil => rfl
  | cons x xs ih => simp [mkCachedResult, ih]

/-- C8: a failing ledger fetch leaves the whole store, so in particular the
cached Result rows of the election, untouched; a successful fetch fully
replaces the cached rows of the election, the new cached row count equalling
the fetched candidate count rather than accumulating. -/
theorem sync_results_fail_before_destroy :
    (∀ (db : DB) (election_id : Nat) (err : String),
        (sync_results db election_id (.error err)).2 = db)
    ∧ (∀ (db : DB) (election_id : Nat) (results : List FetchedCandidate)
          (info : ChainElectionInfo) (election : Election) (addr : String),
        db.elections.find? (fun e => e.id == election_id) = some election →
        election.ballot_address = some addr →
        ((sync_results db election_id
            (.ok (results, info))).2.results.filter
              fun r => r.election_id == election_id).length =
          results.length) := by
  constructor
  · intro db election_id err
    cases hfe : db.elections.find? (fun e => e.id == election_id) with
    | none => simp [sync_results, hfe]
    | some election =>
      cases hba : election.ballot_address with
      | none => simp [sync_results, hfe, hba]
      | some a => simp [sync_results, hfe, hba]
  · intro db election_id results info election addr hfe hba
    have hred : (sync_results db election_id (.ok (results, info))).2.results =
        db.results.filter (fun r => !(r.election_id == election_id)) ++
          results.map (mkCachedResult election_id info (max_votes_of results)) := by
      simp [sync_results, hfe, hba]
    rw [hred, List.filter_append, List.length_append,
      filter_not_filter_self, length_filter_mkCached]
    simp

def staleResult : Result :=
  { election_id := 1
    candidate_id := 9
    candidate_name := "old"
    party := "p"
    vote_count := 1
    total_commits := 1
    total_reveals := 1
    is_winner := true }

def staleDB : DB :=
  { sampleDB with results := [staleResult] }

/-- C8 witness: on a store holding one stale cached row for the election, a
successful sync of three fetched candidates leaves exactly three cached rows
for the election, and a failed fetch leaves the store untouched. -/
theorem sync_results_fail_before_destroy_witness :
    (sync_results staleDB 1 (.error "rpc down")).2 = staleDB ∧
    ((sync_results staleDB 1
        (.ok (exampleFetched, exampleInfo))).2.results.filter
          fun r => r.election_id == 1).length = 3 := by
  constructor
  · exact sync_results_fail_before_destroy.1 staleDB 1 "rpc down"
  · have h := sync_results_fail_before_destroy.2 staleDB 1 exampleFetched
      exampleInfo sampleElection "0xball" (by decide) (by decide)
    simpa using h

-- ──────────────────── C5 ────────────────────

/-- C5: on an input passing validation, create_election persists the election
row and its candidate rows in both deployment branches: on ledger success the
row is stored with status active and both ledger identifiers set, on ledger
failure the same input stores the row with status pending, no onchain_id, no
ballot_address, and the candidate rows are still persisted (no rollback). -/
theorem create_election_deploy_outcomes :
    ∀ (db : DB) (req : CreateElectionRequest) (now : Int) (creator fresh : Nat),
      now < req.commitDeadline →
      req.commitDeadline < req.revealDeadline →
      2 ≤ req.candidates.length →
      (∀ (oid : Nat) (addr : String),
          ∃ e, create_election db req now creator fresh (.ok (oid, addr)) =
              (.created e,
                { db with
                    elections := db.elections ++ [e]
                    candidates :=
                      db.candidates ++ req.candidates.map (mkCandidate fresh) }) ∧
            e.status = .active ∧ e.onchain_id = some oid ∧
            e.ballot_address = some addr)
      ∧ (∀ msg : String,
          ∃ e, create_election db req now creator fresh (.error msg) =
              (.created e,
                { db with
                    elections := db.elections ++ [e]
                    candidates :=
                      db.candidates ++ req.candidates.map (mkCandidate fresh) }) ∧
            e.status = .pending ∧ e.onchain_id = none ∧
            e.ballot_address = none) := by
  intro db req now creator fresh h1 h2 h3
  have hv1 : ¬ req.commitDeadline ≤ now := not_le.mpr h1
  have hv2 : ¬ req.revealDeadline ≤ req.commitDeadline := not_le.mpr h2
  have hv3 : ¬ req.candidates.length < 2 := not_lt.mpr h3
  constructor
  · intro oid addr
    refine ⟨{ id := fresh
              onchain_id := some oid
              name := req.name
              description := req.description
              election_type := req.electionType
              constituency_id := req.constituencyId
              ballot_address := some addr
              commit_deadline := req.commitDeadline
              reveal_deadline := req.revealDeadline
              status := .active
              created_by := creator
              tx_hash := none }, ?_, rfl, rfl, rfl⟩
    simp [create_election, hv1, hv2, hv3]
  · intro msg
    refine ⟨{ id := fresh
              onchain_id := none
              name := req.name
              description := req.description
              election_type := req.electionType
              constituency_id := req.constituencyId
              ballot_address := none
              commit_deadline := req.commitDeadline
              reveal_deadline := req.revealDeadline
              status := .pending
              created_by := creator
              tx_hash := none }, ?_, rfl, rfl, rfl⟩
    simp [create_election, hv1, hv2, hv3]

def sampleCreateReq : CreateElectionRequest :=
  { name := "E2"
    description := "d"
    commitDeadline := 100
    revealDeadline := 200
    candidates :=
      [{ name := "A", party := none, description := none },
       { name := "B", party := some "P", description := none }]
    constituencyId := 0
    electionType := "general" }

def emptyDB : DB :=
  { elections := [], candidates := [], votes := [], results := [], voters := [] }

/-- C5 witness: the same valid request yields an active row with ledger
identifiers when deployment succeeds and a pending row without them when it
fails, the row being persisted either way. -/
theorem create_election_deploy_outcomes_witness :
    (∃ e, (create_election emptyDB sampleCreateReq 50 1 9
        (Except.ok (4, "0xnew"))).1 = .created e ∧
      e.status = .active ∧ e.onchain_id = some 4 ∧
      e.ballot_address = some "0xnew") ∧
    (∃ e, (create_election emptyDB sampleCreateReq 50 1 9
        (Except.error "rpc")).1 = .created e ∧
      e.status = .pending ∧ e.onchain_id = none ∧ e.ballot_address = none ∧
      (create_election emptyDB sampleCreateReq 50 1 9
          (Except.error "rpc")).2.candidates.length = 2) := by
  have h := create_election_deploy_outcomes emptyDB sampleCreateReq 50 1 9
    (by decide) (by decide) (by decide)
  constructor
  · obtain ⟨e, heq, hs, ho, hb⟩ := h.1 4 "0xnew"
    exact ⟨e, by rw [heq], hs, ho, hb⟩
  · obtain ⟨e, heq, hs, ho, hb⟩ := h.2 "rpc"
    refine ⟨e, by rw [heq], hs, ho, hb, by rw [heq]; rfl⟩

-- ──────────────────── C4 ────────────────────

def inactiveVoter : Voter :=
  { id := 1
    name := "v"
    identity_hash := "0xid"
    wallet_address := "0xabc"
    constituency_id := 0
    is_registered_onchain := true
    tx_hash := none
    is_active := false }

def dbInactiveVoter : DB :=
  { elections := []
    candidates := []
    votes := []
    results := []
    voters := [inactiveVoter] }

/-- C4 counterexample: a wallet whose local VoterIdentity row is deactivated
(is_active = false) and whose ledger-side query returns eligible is reported
eligible by check_eligibility, contradicting the claim that local-active is
also required: the handler never consults the local flag. -/
theorem check_eligibility_ignores_local_counterexample :
    (∃ v ∈ dbInactiveVoter.voters,
        v.wallet_address = "0xabc" ∧ v.is_active = false) ∧
    check_eligibility Unit dbInactiveVoter "0xabc" (Except.ok true)
        (Except.ok ()) = .ok "0xabc" true () := by
  constructor
  · exact ⟨inactiveVoter, by decide, by decide, by decide⟩
  · rfl

/-- C4 as amended: check_eligibility reports exactly the ledger-side
isVoterEligible value whenever both ledger reads succeed, for every local
store, so the result is identical on any two stores: the local
VoterIdentity.is_active flag plays no part; a failing ledger read is
reported as its chain error. -/
theorem check_eligibility_ledger_only :
    ∀ (Info : Type) (db db2 : DB) (wallet : String) (b : Bool) (i : Info),
      check_eligibility Info db wallet (.ok b) (.ok i) = .ok wallet b i ∧
      check_eligibility Info db wallet (.ok b) (.ok i) =
        check_eligibility Info db2 wallet (.ok b) (.ok i) ∧
      ∀ (msg : String) (gi : Except String Info),
        check_eligibility Info db wallet (.error msg) gi = .chainError msg := by
  intro Info db db2 wallet b i
  exact ⟨rfl, rfl, fun msg gi => rfl⟩

-- ──────────────────── C10 ────────────────────

/-- C10: voterAddress is not among the fields record_commit validation
requires; a request without it is treated as the empty voter address, so on a
store with no receipt for (election, "") the commit succeeds inserting a row
whose voter_address is the empty string, and afterwards every further
voterAddress-less commit for the same ballot fails as a duplicate leaving the
store unchanged. -/
theorem record_commit_voter_optional :
    ∀ (db : DB) (req : CommitRequest) (now fresh : Nat) (election : Election),
      req.voterAddress = none →
      fieldMissing req.ballotAddress = false →
      fieldMissing req.commitHash = false →
      db.elections.find?
          (fun e => e.ballot_address == some (req.ballotAddress.getD "")) =
        some election →
      db.votes.find? (fun x =>
          x.election_id == election.id && x.voter_address == "") = none →
      (record_commit db req now fresh).1 = .ok fresh ∧
      (∃ m ∈ (record_commit db req now fresh).2.votes,
          m.election_id = election.id ∧ m.voter_address = "") ∧
      ∀ (req2 : CommitRequest) (now2 fresh2 : Nat),
        req2.voterAddress = none →
        req2.ballotAddress = req.ballotAddress →
        fieldMissing req2.commitHash = false →
        record_commit ((record_commit db req now fresh).2) req2 now2 fresh2 =
          (.duplicate, (record_commit db req now fresh).2) := by
  intro db req now fresh election hv hb hc hfe hfv
  have hempty : normalizeAddr (req.voterAddress.getD "") = "" := by
    rw [hv]
    decide
  have hfv' : db.votes.find? (fun x =>
      x.election_id == election.id &&
        x.voter_address == normalizeAddr (req.voterAddress.getD "")) = none := by
    rw [hempty]
    exact hfv
  have hred : record_commit db req now fresh =
      (.ok fresh,
        { db with votes := db.votes ++
            [{ id := fresh
               election_id := election.id
               voter_address := ""
               receipt_hash := req.commitHash.getD ""
               commit_tx_hash := req.txHash
               reveal_tx_hash := none
               phase := .committed
               committed_at := now
               revealed_at := none }] }) := by
    simp [record_commit, hb, hc, hfe, hfv', hempty, hfv]
  refine ⟨by rw [hred], ?_, ?_⟩
  · refine ⟨{ id := fresh
              election_id := election.id
              voter_address := ""
              receipt_hash := req.commitHash.getD ""
              commit_tx_hash := req.txHash
              reveal_tx_hash := none
              phase := .committed
              committed_at := now
              revealed_at := none }, ?_, rfl, rfl⟩
    rw [hred]
    simp
  · intro req2 now2 fresh2 hv2 hb2 hc2
    have hb2' : fieldMissing req2.ballotAddress = false := by
      rw [hb2]
      exact hb
    have hempty2 : normalizeAddr (req2.voterAddress.getD "") = "" := by
      rw [hv2]
      decide
    have hfe2 : ((record_commit db req now fresh).2).elections.find?
        (fun e => e.ballot_address == some (req2.ballotAddress.getD "")) =
        some election := by
      rw [hred, hb2]
      exact hfe
    have hfv2 : ((record_commit db req now fresh).2).votes.find?
        (fun x => x.election_id == election.id &&
          x.voter_address == normalizeAddr (req2.voterAddress.getD "")) =
        some { id := fresh
               election_id := election.id
               voter_address := ""
               receipt_hash := req.commitHash.getD ""
               commit_tx_hash := req.txHash
               reveal_tx_hash := none
               phase := .committed
               committed_at := now
               revealed_at := none } := by
      rw [hred, hempty2]
      simp only [List.find?_append, hfv, Option.none_or]
      simp
    exact record_commit_dup_of_existing
      ((record_commit db req now fresh).2) req2 now2 fresh2 election _
      hfe2 hfv2 hb2' hc2

def anonCommitReq : CommitRequest :=
  { ballotAddress := some "0xball"
    commitHash := some "0xcommit"
    voterAddress := none
    txHash := none }

/-- C10 witness: on a store with no receipts, the voterAddress-less commit
succeeds, and repeating it fails as a duplicate leaving the store
unchanged. -/
theorem record_commit_voter_optional_witness :
    (record_commit dbNoVotes anonCommitReq 3 8).1 = CommitOutcome.ok 8 ∧
    record_commit ((record_commit dbNoVotes anonCommitReq 3 8).2)
        anonCommitReq 4 9 =
      (.duplicate, (record_commit dbNoVotes anonCommitReq 3 8).2) := by
  have h := record_commit_voter_optional dbNoVotes anonCommitReq 3 8
    sampleElection rfl (by decide) (by decide) (by decide) (by decide)
  exact ⟨h.1, h.2.2 anonCommitReq 4 9 rfl rfl (by decide)⟩

end Ezyvoting
